import Mathlib

/-!
Verification of the orchestration layer of `predict.py` (an SDXL prediction
service): aspect-ratio resolution, prompt-conditioning batching, seeding,
output encoding, and the S3 publish step.

Python numeric conventions used in the embedding:
* Python evaluates `resize_image_dimensions` in IEEE-754 double precision.
  Two embeddings of it are given: `resize_image_dimensions` models the float
  arithmetic by exact division in `ℚ` and is bit-for-bit faithful on the 11
  base pairs of the aspect-ratio table (the only pairs `predict` produces),
  while `resize_image_dimensions_ieee` models the doubles themselves as
  dyadic rationals with round-to-nearest, ties-to-even.  On general inputs
  the two differ (for example at the pair 1999 by 1000), so any statement
  ranging beyond the table pairs is settled against the IEEE model.
* `int(x)` for nonnegative `x` is `Int.floor` (for dyadic values, a shift).
* `%` on nonnegative operands agrees with `Int.emod`.
-/

set_option maxRecDepth 100000

namespace Predict

/-! ### Torch tensors (batch dimension only)

A torch tensor is modelled as its list of batch rows, each row a list of
rational scalars.  Only the batch dimension matters for the claims. -/

/-- A torch tensor: a batch (list) of rows of scalars. -/
abbrev Tensor : Type := List (List ℚ)

/-- Python slice `t[a:b]` on the batch (first) dimension. -/
def tensorSlice (t : Tensor) (a b : ℕ) : Tensor :=
  (t.drop a).take (b - a)

/-- torch `tensor * n` for an integer scalar `n`: elementwise scalar
multiplication.  The batch shape is preserved; this is NOT Python list
replication. -/
def tensorMulScalar (t : Tensor) (n : ℕ) : Tensor :=
  t.map (fun row => row.map (fun x => x * (n : ℚ)))

/-- The four conditioning channels assembled in `common_args`
(src/predict.py lines 213-217). -/
structure CommonArgs where
  prompt_embeds : Tensor
  negative_prompt_embeds : Tensor
  pooled_prompt_embeds : Tensor
  negative_pooled_prompt_embeds : Tensor

/-- src/predict.py lines 213-217: `conditioning` and `pooled` are the torch
tensors returned by the compel text encoder for the two input strings
`[prompt, negative_prompt]` (one batch row per string); the code computes
e.g. `conditioning[0:1] * num_outputs`. -/
def mkCommonArgs (conditioning pooled : Tensor) (num_outputs : ℕ) : CommonArgs where
  prompt_embeds := tensorMulScalar (tensorSlice conditioning 0 1) num_outputs
  negative_prompt_embeds := tensorMulScalar (tensorSlice conditioning 1 2) num_outputs
  pooled_prompt_embeds := tensorMulScalar (tensorSlice pooled 0 1) num_outputs
  negative_pooled_prompt_embeds := tensorMulScalar (tensorSlice pooled 1 2) num_outputs

/-! ### Resolution resolver -/

/-- src/predict.py lines 127-141: `aspect_ratios.get(aspect_ratio)` on the
literal dictionary; `.get` with no default returns `None` on a missing key. -/
def aspect_ratio_to_width_height (aspect_ratio : String) : Option (ℕ × ℕ) :=
  if aspect_ratio = "1:1" then some (1024, 1024)
  else if aspect_ratio = "16:9" then some (1344+64, 768+64)
  else if aspect_ratio = "21:9" then some (1536, 640)
  else if aspect_ratio = "3:2" then some (1216, 832)
  else if aspect_ratio = "2:3" then some (832, 1216)
  else if aspect_ratio = "4:3" then some (800, 600)
  else if aspect_ratio = "3:4" then some (600, 800)
  else if aspect_ratio = "4:5" then some (896, 1088)
  else if aspect_ratio = "5:4" then some (1088, 896)
  else if aspect_ratio = "9:16" then some (768, 1344)
  else if aspect_ratio = "9:21" then some (640, 1536)
  else none

/-- The keys of the `aspect_ratios` dictionary (src/predict.py lines 128-140). -/
def aspect_ratio_keys : List String :=
  ["1:1", "16:9", "21:9", "3:2", "2:3", "4:3", "3:4", "4:5", "5:4", "9:16", "9:21"]

/-- src/predict.py line 156: the `choices` constraint of the `aspect_ratio`
request parameter. -/
def aspect_ratio_choices : List String :=
  ["1:1", "16:9", "21:9", "2:3", "3:2", "4:5", "5:4", "9:16", "9:21"]

/-- src/predict.py lines 80-97.  `maximum_dimension` defaults to 1024 in the
source and the sole call site (line 204) uses that default.  Float division is
modelled exactly in `ℚ`; `int` of a nonnegative value is `Int.floor`.  This
exact-rational reading is bit-for-bit faithful to the double-precision run on
the 11 table pairs; `resize_image_dimensions_ieee` below models the doubles
themselves for statements about other inputs. -/
def resize_image_dimensions (original_resolution_wh : ℕ × ℕ)
    (maximum_dimension : ℕ) : ℤ × ℤ :=
  let width := original_resolution_wh.1
  let height := original_resolution_wh.2
  let scaling_factor : ℚ :=
    if width > height then (maximum_dimension : ℚ) / (width : ℚ)
    else (maximum_dimension : ℚ) / (height : ℚ)
  let new_width : ℤ := ⌊(width : ℚ) * scaling_factor⌋
  let new_height : ℤ := ⌊(height : ℚ) * scaling_factor⌋
  (new_width - new_width % 32, new_height - new_height % 32)

/-- src/predict.py lines 200-204: look the aspect ratio up, then resize with
the default maximum dimension 1024.  (On a missing key the Python code raises
a `TypeError` while unpacking `None`; here the `none` propagates.) -/
def resolve (aspect_ratio : String) : Option (ℤ × ℤ) :=
  (aspect_ratio_to_width_height aspect_ratio).map
    (fun wh => resize_image_dimensions wh 1024)

/-! ### IEEE-754 binary64 model of the resize arithmetic

CPython runs `resize_image_dimensions` in double precision.  A positive
double in the normal range is represented by a dyadic pair `(m, e)` of value
`m * 2 ^ e`; every operation rounds its exact result to 53 significant bits,
to nearest, ties to even.  The model covers the positive operands and
normal-range magnitudes occurring here (no overflow, no subnormals, values
between `2 ^ (-200)` and `2 ^ 148`). -/

/-- Floor of the base-2 logarithm of a positive number, by structural fuel
(400 steps suffice for every magnitude used here). -/
def log2fuel : ℕ → ℕ → ℕ
  | 0, _ => 0
  | fuel + 1, n => if 2 ≤ n then log2fuel fuel (n / 2) + 1 else 0

/-- Floor of the base-2 logarithm of a positive number below `2 ^ 400`. -/
def log2F (n : ℕ) : ℕ :=
  log2fuel 400 n

/-- The quotient `a / b` of two positive integers rounded to the nearest
binary64 value, ties to even: the exact quotient is scaled into
`[2 ^ 52, 2 ^ 53)`, rounded there, and renormalized on mantissa overflow. -/
def divFl (a b : ℕ) : ℕ × ℤ :=
  let L := log2F (a * 2 ^ 200 / b)
  let s := 252 - L
  let n := a * 2 ^ s
  let q := n / b
  let r := n % b
  let m0 := if 2 * r < b then q
            else if 2 * r > b then q + 1
            else if q % 2 = 0 then q else q + 1
  let e : ℤ := (L : ℤ) - 252
  if m0 = 2 ^ 53 then (2 ^ 52, e + 1) else (m0, e)

/-- The product of an exactly-representable integer and a binary64 value,
rounded to the nearest binary64 value, ties to even (products below `2 ^ 53`
are exact). -/
def mulFl (w : ℕ) (d : ℕ × ℤ) : ℕ × ℤ :=
  let p := w * d.1
  if p < 2 ^ 53 then (p, d.2)
  else
    let shift := log2F p - 52
    let q := p / 2 ^ shift
    let r := p % 2 ^ shift
    let half := 2 ^ (shift - 1)
    let m0 := if r < half then q
              else if r > half then q + 1
              else if q % 2 = 0 then q else q + 1
    if m0 = 2 ^ 53 then (2 ^ 52, d.2 + shift + 1) else (m0, d.2 + shift)

/-- Python `int(x)` on a positive dyadic value: truncation toward zero. -/
def truncDyadic (d : ℕ × ℤ) : ℕ :=
  match d.2 with
  | Int.ofNat e => d.1 * 2 ^ e
  | Int.negSucc e => d.1 / 2 ^ (e + 1)

/-- src/predict.py lines 80-97 evaluated the way CPython actually evaluates
it, in IEEE-754 double precision: the scaling factor is one rounded division,
each side is one rounded multiplication, and `int` truncates; the mod-32
flooring is integer arithmetic. -/
def resize_image_dimensions_ieee (original_resolution_wh : ℕ × ℕ)
    (maximum_dimension : ℕ) : ℤ × ℤ :=
  let width := original_resolution_wh.1
  let height := original_resolution_wh.2
  let scaling_factor :=
    if width > height then divFl maximum_dimension width
    else divFl maximum_dimension height
  let new_width := truncDyadic (mulFl width scaling_factor)
  let new_height := truncDyadic (mulFl height scaling_factor)
  ((new_width : ℤ) - (new_width : ℤ) % 32,
   (new_height : ℤ) - (new_height : ℤ) % 32)

/-! ### Seed resolution -/

/-- src/predict.py lines 196-197: `seed = int.from_bytes(os.urandom(2), "big")`
when the request leaves the seed blank; the two random bytes are passed in
explicitly.  A supplied seed is used unchanged. -/
def resolveSeed (seed : Option ℤ) (urandom : ℕ × ℕ) : ℤ :=
  match seed with
  | none => ((urandom.1 * 256 + urandom.2 : ℕ) : ℤ)
  | some s => s

/-! ### Short identifiers

The short-id encoder is the external `sqids` library (`from sqids import
Sqids`, used at src/predict.py lines 227-231); its code is not part of this
repository. -/

/-- The 62 alphanumeric characters available to the short-id encoding. -/
def shortIdAlphabet : List Char :=
  ['a', 'b', 'c', 'd', 'e', 'f', 'g', 'h', 'i', 'j', 'k', 'l', 'm',
   'n', 'o', 'p', 'q', 'r', 's', 't', 'u', 'v', 'w', 'x', 'y', 'z',
   'A', 'B', 'C', 'D', 'E', 'F', 'G', 'H', 'I', 'J', 'K', 'L', 'M',
   'N', 'O', 'P', 'Q', 'R', 'S', 'T', 'U', 'V', 'W', 'X', 'Y', 'Z',
   '0', '1', '2', '3', '4', '5', '6', '7', '8', '9']

/-- The alphanumeric character of digit `d < 62`. -/
def digitChar62 (d : ℕ) : Char :=
  shortIdAlphabet.getD d 'a'

/-- The digit value of an alphanumeric character. -/
def charVal62 (c : Char) : ℕ :=
  shortIdAlphabet.indexOf c

/-- Modelled from the spec: the external `sqids` short-id encoder
(`sqids.encode([current_timestamp, i])`, src/predict.py line 231) is not under
src/; the spec describes it as "a reversible, collision-resistant encoding of
the (timestamp, index) pair into a short alphanumeric string".  The pair is
packed bijectively into one natural number and written in base 62 over the
alphanumeric alphabet. -/
def shortIdEncode (timestamp index : ℕ) : String :=
  ⟨(Nat.digits 62 (Nat.pair timestamp index)).map digitChar62⟩

/-- Modelled from the spec: inverse of `shortIdEncode` (the spec calls the
encoding reversible: identifiers decode back to the (timestamp, index) pair). -/
def shortIdDecode (s : String) : ℕ × ℕ :=
  Nat.unpair (Nat.ofDigits 62 (s.toList.map charVal62))

/-! ### Output encoding -/

/-- The loop body of src/predict.py lines 230-237: `for i, image in
enumerate(output.images)`, starting at index `n`; each image is saved to
`f"/tmp/out-\x7bunique_id\x7d.\x7boutput_format\x7d"` (the `image.save` call
itself is a filesystem effect outside the model; only the produced paths
matter). -/
def encodeOutputsFrom {Image : Type} (current_timestamp : ℕ) (output_format : String) :
    ℕ → List Image → List String
  | _, [] => []
  | i, _ :: rest =>
      ("/tmp/out-" ++ shortIdEncode current_timestamp i ++ "." ++ output_format) ::
        encodeOutputsFrom current_timestamp output_format (i + 1) rest

/-- src/predict.py lines 226-237: the `output_paths` list built by the
enumerate loop (enumeration starts at 0). -/
def encodeOutputs {Image : Type} (images : List Image) (current_timestamp : ℕ)
    (output_format : String) : List String :=
  encodeOutputsFrom current_timestamp output_format 0 images

/-! ### Publisher -/

/-- The external S3 side of `upload_to_s3` and `generate_presigned_url`
(src/predict.py lines 30-77): whether `upload_file` succeeds for a given
bucket and file path, and the presigned URL produced for a given bucket and
object (none when `generate_presigned_url` catches an exception and returns
`None`).  The object key is the file's base name, itself a function of the
file path, so both are indexed by bucket name and file path. -/
structure S3Env where
  uploadOk : String → String → Bool
  presignedUrl : String → String → Option String

/-- One iteration of the upload loop (src/predict.py lines 41-53): try the
upload; on success generate a presigned URL and append it when truthy (Python
`if presigned_url:` is false for both `None` and the empty string); an upload
exception is caught, logged and skipped. -/
def uploadStep (env : S3Env) (bucket_name : String)
    (presigned_urls : List String) (file_path : String) : List String :=
  if env.uploadOk bucket_name file_path then
    match env.presignedUrl bucket_name file_path with
    | some presigned_url =>
        if presigned_url = "" then presigned_urls else presigned_urls ++ [presigned_url]
    | none => presigned_urls
  else presigned_urls

/-- src/predict.py lines 30-55: fold the upload loop over the files with the
initially empty `presigned_urls` accumulator.  Every per-file exception is
caught inside the loop, so the function is total (it never raises). -/
def upload_to_s3 (env : S3Env) (files : List String) (bucket_name : String) :
    List String :=
  files.foldl (uploadStep env bucket_name) []

/-- The per-file outcome of the publish step: `some url` exactly when the
upload succeeded and a truthy presigned URL was generated, `none` otherwise
(the file is dropped). -/
def publishOutcome (env : S3Env) (bucket_name : String) (file_path : String) :
    Option String :=
  if env.uploadOk bucket_name file_path then
    match env.presignedUrl bucket_name file_path with
    | some presigned_url => if presigned_url = "" then none else some presigned_url
    | none => none
  else none

/-! ### End of predict -/

/-- The message of the empty-output exception (src/predict.py lines 240-242). -/
def noOutputMessage : String :=
  "Something went wrong. Try running it again, or try a different prompt."

/-- src/predict.py lines 226-244: encode the generated images, raise when no
output path was produced (modelled as `Except.error`), otherwise upload and
return the presigned URLs. -/
def predictFinish {Image : Type} (env : S3Env) (bucket_name : String)
    (images : List Image) (current_timestamp : ℕ) (output_format : String) :
    Except String (List String) :=
  let output_paths := encodeOutputs images current_timestamp output_format
  if output_paths.length = 0 then
    Except.error noOutputMessage
  else
    Except.ok (upload_to_s3 env output_paths bucket_name)

/-! ## Helper lemmas -/

/-- Unfolded form of `resize_image_dimensions` on an explicit pair. -/
theorem resize_image_dimensions_eq (w h m : ℕ) :
    resize_image_dimensions (w, h) m =
      ((⌊(w : ℚ) * (if w > h then (m : ℚ) / (w : ℚ) else (m : ℚ) / (h : ℚ))⌋ : ℤ) -
         ⌊(w : ℚ) * (if w > h then (m : ℚ) / (w : ℚ) else (m : ℚ) / (h : ℚ))⌋ % 32,
       (⌊(h : ℚ) * (if w > h then (m : ℚ) / (w : ℚ) else (m : ℚ) / (h : ℚ))⌋ : ℤ) -
         ⌊(h : ℚ) * (if w > h then (m : ℚ) / (w : ℚ) else (m : ℚ) / (h : ℚ))⌋ % 32) := rfl

/-- The scaled side, floored, is a natural-number division. -/
theorem floor_scale_natdiv (s L m : ℕ) :
    ⌊(s : ℚ) * ((m : ℚ) / (L : ℚ))⌋ = (((s * m) / L : ℕ) : ℤ) := by
  rw [← mul_div_assoc,
    show ((s : ℚ) * (m : ℚ)) = ((s * m : ℕ) : ℚ) by push_cast; ring,
    Rat.floor_natCast_div_natCast]
  rfl

/-- `resize_image_dimensions` computed with natural-number division. -/
theorem resize_image_dimensions_natdiv (w h m : ℕ) :
    resize_image_dimensions (w, h) m =
      ((((w * m) / (if w > h then w else h) : ℕ) : ℤ) -
         (((w * m) / (if w > h then w else h) : ℕ) : ℤ) % 32,
       (((h * m) / (if w > h then w else h) : ℕ) : ℤ) -
         (((h * m) / (if w > h then w else h) : ℕ) : ℤ) % 32) := by
  rw [resize_image_dimensions_eq]
  by_cases hcmp : w > h
  · simp only [if_pos hcmp, floor_scale_natdiv]
  · simp only [if_neg hcmp, floor_scale_natdiv]

/-- The digit-to-character map of the short-id alphabet is inverted by the
character-to-digit map on digits below 62. -/
theorem charVal62_digitChar62 : ∀ d < 62, charVal62 (digitChar62 d) = d := by decide

/-- Mapping to characters and back is the identity on base-62 digit lists. -/
theorem map_charVal62_map_digitChar62 (ds : List ℕ) (h : ∀ d ∈ ds, d < 62) :
    (ds.map digitChar62).map charVal62 = ds := by
  induction ds with
  | nil => rfl
  | cons d ds ih =>
      simp only [List.map_cons]
      rw [charVal62_digitChar62 d (h d (List.mem_cons_self d ds)),
        ih (fun x hx => h x (List.mem_cons_of_mem d hx))]

/-- Round trip of the modelled short-id encoding. -/
theorem shortIdDecode_shortIdEncode (t i : ℕ) :
    shortIdDecode (shortIdEncode t i) = (t, i) := by
  unfold shortIdDecode shortIdEncode
  rw [show (String.mk ((Nat.digits 62 (Nat.pair t i)).map digitChar62)).toList
      = (Nat.digits 62 (Nat.pair t i)).map digitChar62 from rfl]
  rw [map_charVal62_map_digitChar62 _
    (fun d hd => Nat.digits_lt_base (by norm_num) hd)]
  rw [Nat.ofDigits_digits, Nat.unpair_pair]

/-- For a fixed timestamp the short-id encoding is injective in the index. -/
theorem shortIdEncode_injective (t : ℕ) :
    Function.Injective (fun i => shortIdEncode t i) := by
  intro i j hij
  have h1 := shortIdDecode_shortIdEncode t i
  have h2 := shortIdDecode_shortIdEncode t j
  simp only at hij
  rw [hij, h2] at h1
  exact (Prod.mk.injEq t i t j).mp h1.symm |>.2

/-- The enumerate loop starting at `n` produces one path per image, indexed
consecutively. -/
theorem encodeOutputsFrom_eq {Image : Type} (ts : ℕ) (fmt : String) :
    ∀ (images : List Image) (n : ℕ),
      encodeOutputsFrom ts fmt n images =
        (List.range' n images.length).map
          (fun i => "/tmp/out-" ++ shortIdEncode ts i ++ "." ++ fmt) := by
  intro images
  induction images with
  | nil => intro n; rfl
  | cons img rest ih =>
      intro n
      rw [show (img :: rest).length = rest.length + 1 from rfl, List.range'_succ,
        List.map_cons]
      rw [encodeOutputsFrom, ih (n + 1)]

/-- The upload loop is a filter-map of the per-file publish outcome. -/
theorem foldl_uploadStep (env : S3Env) (bucket_name : String) :
    ∀ (files : List String) (acc : List String),
      files.foldl (uploadStep env bucket_name) acc =
        acc ++ files.filterMap (publishOutcome env bucket_name) := by
  intro files
  induction files with
  | nil => intro acc; simp
  | cons f fs ih =>
      intro acc
      rw [List.foldl_cons, ih, List.filterMap_cons]
      have hstep : uploadStep env bucket_name acc f =
          acc ++ (publishOutcome env bucket_name f).toList := by
        unfold uploadStep publishOutcome
        by_cases hu : env.uploadOk bucket_name f
        · simp only [hu, if_true]
          rcases hp : env.presignedUrl bucket_name f with _ | u
          · simp
          · by_cases he : u = "" <;> simp [he]
        · simp [hu]
      rcases hp : publishOutcome env bucket_name f with _ | u
      · rw [hstep, hp]
        simp
      · rw [hstep, hp]
        simp

/-! ## Claim theorems -/

/-- C1: the claim says `common_args` holds embedding batches of length
`num_outputs` for all four channels, obtained by replicating row 0 and row 1
of the encoder output.  The code instead multiplies a one-row tensor slice by
the integer `num_outputs` (torch scalar multiplication): at `num_outputs = 2`
with encoder output rows `[1]`, `[2]` (pooled rows `[3]`, `[4]`), every
channel keeps batch length 1 and its values are scaled by 2. -/
theorem conditioning_scaled_not_broadcast :
    (mkCommonArgs [[1], [2]] [[3], [4]] 2).prompt_embeds.length = 1 ∧
    (mkCommonArgs [[1], [2]] [[3], [4]] 2).negative_prompt_embeds.length = 1 ∧
    (mkCommonArgs [[1], [2]] [[3], [4]] 2).pooled_prompt_embeds.length = 1 ∧
    (mkCommonArgs [[1], [2]] [[3], [4]] 2).negative_pooled_prompt_embeds.length = 1 ∧
    (mkCommonArgs [[1], [2]] [[3], [4]] 2).prompt_embeds = [[2]] ∧
    (mkCommonArgs [[1], [2]] [[3], [4]] 2).negative_prompt_embeds = [[4]] ∧
    (mkCommonArgs [[1], [2]] [[3], [4]] 2).pooled_prompt_embeds = [[6]] ∧
    (mkCommonArgs [[1], [2]] [[3], [4]] 2).negative_pooled_prompt_embeds = [[8]] := by
  refine ⟨rfl, rfl, rfl, rfl, ?_, ?_, ?_, ?_⟩ <;>
    · simp only [mkCommonArgs, tensorMulScalar, tensorSlice, List.drop, List.take,
        List.map_cons, List.map_nil]
      norm_num

/-- C2: for every supported aspect ratio key, resolving it (table lookup, then
scaling by 1024 over the larger side, then flooring to the lower multiple of
32) yields a pair of positive multiples of 32. -/
theorem resolve_supported_dims (k : String) (hk : k ∈ aspect_ratio_keys) :
    ∃ wh : ℤ × ℤ, resolve k = some wh ∧
      0 < wh.1 ∧ 0 < wh.2 ∧ (32 : ℤ) ∣ wh.1 ∧ (32 : ℤ) ∣ wh.2 := by
  fin_cases hk
  · refine ⟨(1024, 1024), ?_, by norm_num, by norm_num, by norm_num, by norm_num⟩
    rw [resolve, show aspect_ratio_to_width_height "1:1" = some (1024, 1024) from rfl,
      Option.map_some', resize_image_dimensions_natdiv]
    norm_num
  · refine ⟨(1024, 576), ?_, by norm_num, by norm_num, by norm_num, by norm_num⟩
    rw [resolve, show aspect_ratio_to_width_height "16:9" = some (1408, 832) from rfl,
      Option.map_some', resize_image_dimensions_natdiv]
    norm_num
  · refine ⟨(1024, 416), ?_, by norm_num, by norm_num, by norm_num, by norm_num⟩
    rw [resolve, show aspect_ratio_to_width_height "21:9" = some (1536, 640) from rfl,
      Option.map_some', resize_image_dimensions_natdiv]
    norm_num
  · refine ⟨(1024, 672), ?_, by norm_num, by norm_num, by norm_num, by norm_num⟩
    rw [resolve, show aspect_ratio_to_width_height "3:2" = some (1216, 832) from rfl,
      Option.map_some', resize_image_dimensions_natdiv]
    norm_num
  · refine ⟨(672, 1024), ?_, by norm_num, by norm_num, by norm_num, by norm_num⟩
    rw [resolve, show aspect_ratio_to_width_height "2:3" = some (832, 1216) from rfl,
      Option.map_some', resize_image_dimensions_natdiv]
    norm_num
  · refine ⟨(1024, 768), ?_, by norm_num, by norm_num, by norm_num, by norm_num⟩
    rw [resolve, show aspect_ratio_to_width_height "4:3" = some (800, 600) from rfl,
      Option.map_some', resize_image_dimensions_natdiv]
    norm_num
  · refine ⟨(768, 1024), ?_, by norm_num, by norm_num, by norm_num, by norm_num⟩
    rw [resolve, show aspect_ratio_to_width_height "3:4" = some (600, 800) from rfl,
      Option.map_some', resize_image_dimensions_natdiv]
    norm_num
  · refine ⟨(832, 1024), ?_, by norm_num, by norm_num, by norm_num, by norm_num⟩
    rw [resolve, show aspect_ratio_to_width_height "4:5" = some (896, 1088) from rfl,
      Option.map_some', resize_image_dimensions_natdiv]
    norm_num
  · refine ⟨(1024, 832), ?_, by norm_num, by norm_num, by norm_num, by norm_num⟩
    rw [resolve, show aspect_ratio_to_width_height "5:4" = some (1088, 896) from rfl,
      Option.map_some', resize_image_dimensions_natdiv]
    norm_num
  · refine ⟨(576, 1024), ?_, by norm_num, by norm_num, by norm_num, by norm_num⟩
    rw [resolve, show aspect_ratio_to_width_height "9:16" = some (768, 1344) from rfl,
      Option.map_some', resize_image_dimensions_natdiv]
    norm_num
  · refine ⟨(416, 1024), ?_, by norm_num, by norm_num, by norm_num, by norm_num⟩
    rw [resolve, show aspect_ratio_to_width_height "9:21" = some (640, 1536) from rfl,
      Option.map_some', resize_image_dimensions_natdiv]
    norm_num

/-- Witness for C2 at the key "1:1". -/
theorem resolve_supported_dims_witness :
    "1:1" ∈ aspect_ratio_keys ∧
    ∃ wh : ℤ × ℤ, resolve "1:1" = some wh ∧
      0 < wh.1 ∧ 0 < wh.2 ∧ (32 : ℤ) ∣ wh.1 ∧ (32 : ℤ) ∣ wh.2 :=
  ⟨by decide, resolve_supported_dims "1:1" (by decide)⟩

/-- C3: for every key outside the supported set, the lookup returns `none`
(and so does the composed resolver); no default pair is produced. -/
theorem lookup_unsupported_none (s : String) (hs : s ∉ aspect_ratio_keys) :
    aspect_ratio_to_width_height s = none ∧ resolve s = none := by
  have mem : ∀ t : String, t ∈ aspect_ratio_keys → s ≠ t :=
    fun t ht h => hs (by rw [h]; exact ht)
  have h : aspect_ratio_to_width_height s = none := by
    unfold aspect_ratio_to_width_height
    rw [if_neg (mem "1:1" (by decide)), if_neg (mem "16:9" (by decide)),
      if_neg (mem "21:9" (by decide)), if_neg (mem "3:2" (by decide)),
      if_neg (mem "2:3" (by decide)), if_neg (mem "4:3" (by decide)),
      if_neg (mem "3:4" (by decide)), if_neg (mem "4:5" (by decide)),
      if_neg (mem "5:4" (by decide)), if_neg (mem "9:16" (by decide)),
      if_neg (mem "9:21" (by decide))]
  exact ⟨h, by rw [resolve, h]; rfl⟩

/-- Witness for C3 at the unsupported key "7:5". -/
theorem lookup_unsupported_none_witness :
    "7:5" ∉ aspect_ratio_keys ∧
    (aspect_ratio_to_width_height "7:5" = none ∧ resolve "7:5" = none) :=
  ⟨by decide, lookup_unsupported_none "7:5" (by decide)⟩

/-- C4: the output-encoding loop returns exactly one path per input image, in
input order, the path at index `i` being
`"/tmp/out-" ++ shortIdEncode ts i ++ "." ++ fmt`. -/
theorem encodeOutputs_one_path_per_image {Image : Type} (images : List Image)
    (ts : ℕ) (fmt : String) (hne : images ≠ []) :
    (encodeOutputs images ts fmt).length = images.length ∧
    encodeOutputs images ts fmt =
      (List.range images.length).map
        (fun i => "/tmp/out-" ++ shortIdEncode ts i ++ "." ++ fmt) := by
  have h := encodeOutputsFrom_eq ts fmt images 0
  refine ⟨?_, ?_⟩
  · rw [encodeOutputs, h]
    simp
  · rw [encodeOutputs, h, List.range_eq_range']

/-- Witness for C4 on a two-image batch. -/
theorem encodeOutputs_one_path_per_image_witness :
    (encodeOutputs ([10, 20] : List ℕ) 3 "png").length = ([10, 20] : List ℕ).length ∧
    encodeOutputs ([10, 20] : List ℕ) 3 "png" =
      (List.range ([10, 20] : List ℕ).length).map
        (fun i => "/tmp/out-" ++ shortIdEncode 3 i ++ "." ++ "png") :=
  encodeOutputs_one_path_per_image [10, 20] 3 "png" (by decide)

/-- C5: the short-id encoding is deterministic and reversible (decode is a
left inverse), injective in the index for a fixed timestamp, and therefore
yields pairwise-distinct identifiers within one batch. -/
theorem shortId_deterministic_and_injective :
    (∀ t i, shortIdDecode (shortIdEncode t i) = (t, i)) ∧
    (∀ t i j, i ≠ j → shortIdEncode t i ≠ shortIdEncode t j) ∧
    (∀ t n, ((List.range n).map (fun i => shortIdEncode t i)).Nodup) := by
  refine ⟨shortIdDecode_shortIdEncode, ?_, ?_⟩
  · intro t i j hij hencode
    exact hij (shortIdEncode_injective t hencode)
  · intro t n
    exact (List.nodup_range n).map (shortIdEncode_injective t)

/-- Witness for C5 at concrete timestamps and indices. -/
theorem shortId_deterministic_and_injective_witness :
    shortIdDecode (shortIdEncode 1700000000 2) = (1700000000, 2) ∧
    shortIdEncode 5 0 ≠ shortIdEncode 5 1 ∧
    ((List.range 3).map (fun i => shortIdEncode 7 i)).Nodup :=
  ⟨shortId_deterministic_and_injective.1 1700000000 2,
   shortId_deterministic_and_injective.2.1 5 0 1 (by decide),
   shortId_deterministic_and_injective.2.2 7 3⟩

/-- C6: when the encoded artifact list is empty the prediction ends in the
explicit retry error and never in an `ok` result (in particular not in a
silent empty list). -/
theorem predictFinish_empty_error {Image : Type} (env : S3Env) (bucket : String)
    (images : List Image) (ts : ℕ) (fmt : String)
    (hempty : encodeOutputs images ts fmt = []) :
    predictFinish env bucket images ts fmt = Except.error noOutputMessage ∧
    ∀ urls : List String, predictFinish env bucket images ts fmt ≠ Except.ok urls := by
  have h : predictFinish env bucket images ts fmt = Except.error noOutputMessage := by
    simp [predictFinish, hempty]
  refine ⟨h, fun urls hok => ?_⟩
  rw [h] at hok
  exact Except.noConfusion hok

/-- Witness for C6 on an empty image batch. -/
theorem predictFinish_empty_error_witness :
    predictFinish (⟨fun _ _ => true, fun _ f => some f⟩ : S3Env) "bucket"
        ([] : List ℕ) 0 "webp" = Except.error noOutputMessage ∧
    ∀ urls : List String,
      predictFinish (⟨fun _ _ => true, fun _ f => some f⟩ : S3Env) "bucket"
        ([] : List ℕ) 0 "webp" ≠ Except.ok urls :=
  predictFinish_empty_error _ "bucket" [] 0 "webp" rfl

/-- C7: the publish step processes files in input order and equals the
filter-map of the per-file outcome — one URL per successfully published
artifact, failures dropped without aborting — so its length is at most the
artifact count (and the function is total: every per-file error is caught). -/
theorem upload_to_s3_best_effort (env : S3Env) (files : List String)
    (bucket_name : String) :
    upload_to_s3 env files bucket_name =
      files.filterMap (publishOutcome env bucket_name) ∧
    (upload_to_s3 env files bucket_name).length ≤ files.length := by
  have h := foldl_uploadStep env bucket_name files []
  rw [List.nil_append] at h
  refine ⟨by rw [upload_to_s3, h], ?_⟩
  rw [upload_to_s3, h]
  exact List.length_filterMap_le _ _

/-- C8 counterexample: "4:3" is a key of the resolver's table but not one of
the request parameter's `choices`, so not every table key is a valid request
value (the `choices` enum has 9 entries, not 11). -/
theorem table_key_not_a_choice :
    "4:3" ∈ aspect_ratio_keys ∧
    aspect_ratio_to_width_height "4:3" = some (800, 600) ∧
    "4:3" ∉ aspect_ratio_choices := by
  decide

/-- C8 (amended): the request interface accepts exactly 9 named ratios, each
of which is a key of the 11-key resolver table; the table keys "4:3" and
"3:4" are not valid request values. -/
theorem choices_are_table_keys :
    aspect_ratio_choices.length = 9 ∧
    aspect_ratio_keys.length = 11 ∧
    (∀ c ∈ aspect_ratio_choices,
      c ∈ aspect_ratio_keys ∧ (aspect_ratio_to_width_height c).isSome = true) ∧
    "4:3" ∉ aspect_ratio_choices ∧ "3:4" ∉ aspect_ratio_choices := by
  decide

/-- Witness for C8 (amended) at the choice "16:9". -/
theorem choices_are_table_keys_witness :
    "16:9" ∈ aspect_ratio_keys ∧
    (aspect_ratio_to_width_height "16:9").isSome = true :=
  choices_are_table_keys.2.2.1 "16:9" (by decide)

/-- C9: with the seed parameter omitted, the seed is built big-endian from two
random bytes and so lies in `[0, 65536)`; a supplied seed is used unchanged. -/
theorem seed_resolution (b0 b1 : ℕ) (hb0 : b0 < 256) (hb1 : b1 < 256) :
    (0 ≤ resolveSeed none (b0, b1) ∧ resolveSeed none (b0, b1) < 65536) ∧
    ∀ s : ℤ, resolveSeed (some s) (b0, b1) = s := by
  refine ⟨⟨?_, ?_⟩, fun s => rfl⟩
  · exact Int.natCast_nonneg _
  · show ((b0 * 256 + b1 : ℕ) : ℤ) < 65536
    have : b0 * 256 + b1 < 65536 := by omega
    exact_mod_cast this

/-- Witness for C9 at the extreme byte values. -/
theorem seed_resolution_witness :
    (0 ≤ resolveSeed none (255, 255) ∧ resolveSeed none (255, 255) < 65536) ∧
    ∀ s : ℤ, resolveSeed (some s) (255, 255) = s :=
  seed_resolution 255 255 (by decide) (by decide)

/-- C10 counterexample: under the double-precision arithmetic the program
actually runs, the positive input pair (1999, 1000) resizes to (992, 512) —
the rounded product `1999 * (1024 / 1999)` falls just below 1024 and `int`
truncates it to 1023, which floors to 992 — so the larger element of the
result is 992, not the maximum dimension 1024. -/
theorem resize_ieee_not_maximum_at_1999 :
    resize_image_dimensions_ieee (1999, 1000) 1024 = (992, 512) ∧
    max (resize_image_dimensions_ieee (1999, 1000) 1024).1
        (resize_image_dimensions_ieee (1999, 1000) 1024).2 ≠ 1024 := by
  decide

/-- C10 (amended): for every base pair of the aspect-ratio table — the only
pairs `predict` ever passes to the resizer — the double-precision resize
result has larger element exactly 1024, neither element exceeds 1024, and the
result agrees with the exact-rational model on that pair. -/
theorem resize_table_larger_side_is_maximum (k : String)
    (hk : k ∈ aspect_ratio_keys) :
    ∃ wh : ℕ × ℕ, aspect_ratio_to_width_height k = some wh ∧
      max (resize_image_dimensions_ieee wh 1024).1
          (resize_image_dimensions_ieee wh 1024).2 = 1024 ∧
      (resize_image_dimensions_ieee wh 1024).1 ≤ 1024 ∧
      (resize_image_dimensions_ieee wh 1024).2 ≤ 1024 ∧
      resize_image_dimensions_ieee wh 1024 = resize_image_dimensions wh 1024 := by
  fin_cases hk
  · exact ⟨(1024, 1024), rfl, by decide, by decide, by decide,
      by rw [resize_image_dimensions_natdiv]; decide⟩
  · exact ⟨(1408, 832), rfl, by decide, by decide, by decide,
      by rw [resize_image_dimensions_natdiv]; decide⟩
  · exact ⟨(1536, 640), rfl, by decide, by decide, by decide,
      by rw [resize_image_dimensions_natdiv]; decide⟩
  · exact ⟨(1216, 832), rfl, by decide, by decide, by decide,
      by rw [resize_image_dimensions_natdiv]; decide⟩
  · exact ⟨(832, 1216), rfl, by decide, by decide, by decide,
      by rw [resize_image_dimensions_natdiv]; decide⟩
  · exact ⟨(800, 600), rfl, by decide, by decide, by decide,
      by rw [resize_image_dimensions_natdiv]; decide⟩
  · exact ⟨(600, 800), rfl, by decide, by decide, by decide,
      by rw [resize_image_dimensions_natdiv]; decide⟩
  · exact ⟨(896, 1088), rfl, by decide, by decide, by decide,
      by rw [resize_image_dimensions_natdiv]; decide⟩
  · exact ⟨(1088, 896), rfl, by decide, by decide, by decide,
      by rw [resize_image_dimensions_natdiv]; decide⟩
  · exact ⟨(768, 1344), rfl, by decide, by decide, by decide,
      by rw [resize_image_dimensions_natdiv]; decide⟩
  · exact ⟨(640, 1536), rfl, by decide, by decide, by decide,
      by rw [resize_image_dimensions_natdiv]; decide⟩

/-- Witness for C10 (amended) at the key "4:3", whose base pair 800 by 600
is scaled up to the full 1024 budget, (1024, 768). -/
theorem resize_table_larger_side_is_maximum_witness :
    "4:3" ∈ aspect_ratio_keys ∧
    (∃ wh : ℕ × ℕ, aspect_ratio_to_width_height "4:3" = some wh ∧
      max (resize_image_dimensions_ieee wh 1024).1
          (resize_image_dimensions_ieee wh 1024).2 = 1024 ∧
      (resize_image_dimensions_ieee wh 1024).1 ≤ 1024 ∧
      (resize_image_dimensions_ieee wh 1024).2 ≤ 1024 ∧
      resize_image_dimensions_ieee wh 1024 = resize_image_dimensions wh 1024) ∧
    resize_image_dimensions_ieee (800, 600) 1024 = (1024, 768) :=
  ⟨by decide, resize_table_larger_side_is_maximum "4:3" (by decide), by decide⟩

end Predict
